import Mathlib

/-!
Verification of the netvis PCAP/PCAPNG reading, protocol decoding and
simulated-replay modules.

The JavaScript sources are shallowly embedded:
* byte buffers become `List Nat` (every element a byte value `< 256`;
  theorems that need this state it as a hypothesis);
* `Buffer.readUIntNN` calls that are always in bounds at their call sites
  become total reads that zero-pad (`List.getD _ _ 0`); reads that can be
  out of bounds in the source (the `part_000` parser) become `Option`
  reads, and the surrounding `try/catch { return null }` becomes the
  `Option` monad;
* JS floating-point arithmetic on timestamps and progress percentages is
  modelled in `ℚ` (exact in every situation a theorem below mentions);
* the Node stream is modelled as a fold of a chunk-processing function
  over the list of chunks, and `setTimeout` scheduling in the replay
  engine as an explicit `timer` flag fired by an external driver.
-/

namespace NetVis

/-! ## Byte-buffer primitives (Buffer reads, slices) -/

/-- One byte of a buffer, zero when out of range (used only where the JS
read is in bounds). -/
def readU8 (b : List Nat) (i : Nat) : Nat := b.getD i 0

/-- Big-endian 16-bit read, `Buffer.readUInt16BE`. -/
def readUInt16BE (b : List Nat) (i : Nat) : Nat :=
  readU8 b i * 256 + readU8 b (i + 1)

/-- Little-endian 16-bit read, `Buffer.readUInt16LE`. -/
def readUInt16LE (b : List Nat) (i : Nat) : Nat :=
  readU8 b (i + 1) * 256 + readU8 b i

/-- Big-endian 32-bit read, `Buffer.readUInt32BE`. -/
def readUInt32BE (b : List Nat) (i : Nat) : Nat :=
  readU8 b i * 16777216 + readU8 b (i + 1) * 65536 + readU8 b (i + 2) * 256 + readU8 b (i + 3)

/-- Little-endian 32-bit read, `Buffer.readUInt32LE`. -/
def readUInt32LE (b : List Nat) (i : Nat) : Nat :=
  readU8 b (i + 3) * 16777216 + readU8 b (i + 2) * 65536 + readU8 b (i + 1) * 256 + readU8 b i

/-- `buffer[readFunc]` where `readFunc` is chosen from the endianness flag
(pcapReader.js `parsePacketHeader`). -/
def readUInt32 (b : List Nat) (i : Nat) (isLittleEndian : Bool) : Nat :=
  if isLittleEndian then readUInt32LE b i else readUInt32BE b i

/-- `buffer.slice(a, b)` (clamping, never throws). -/
def bufSlice (l : List Nat) (a b : Nat) : List Nat := (l.drop a).take (b - a)

/-! ## String formatting helpers -/

/-- Lowercase hex digit, as produced by JS `Number.prototype.toString(16)`. -/
def hexChar (n : Nat) : Char := if n < 10 then Char.ofNat (48 + n) else Char.ofNat (87 + n)

/-- A byte as two lowercase hex digits: `b.toString(16).padStart(2, "0")`
for byte values `< 256`. -/
def hexByte (b : Nat) : String := String.mk [hexChar (b / 16 % 16), hexChar (b % 16)]

/-- Four lowercase hex digits: `n.toString(16).padStart(4, "0")` for
`n < 65536`. -/
def hex4 (n : Nat) : String :=
  String.mk [hexChar (n / 4096 % 16), hexChar (n / 256 % 16), hexChar (n / 16 % 16), hexChar (n % 16)]

/-- Full hex rendering `n.toString(16)` (no padding). -/
def natToHexStr (n : Nat) : String := String.mk (Nat.toDigits 16 n)

/-- MAC-address rendering: hex bytes joined with `":"`. -/
def macString (bytes : List Nat) : String := String.intercalate ":" (bytes.map hexByte)

/-- Dotted-decimal IPv4 rendering of four bytes. -/
def ipString (a b c d : Nat) : String :=
  toString a ++ "." ++ toString b ++ "." ++ toString c ++ "." ++ toString d

/-! ## packetParser.js (src/electron/pcap/packetParser.js)

The layered decoder.  All `Buffer` reads in this file are guarded by
length checks at their call sites, so the embedded functions are total and
the JS `try/catch` around the layer dispatch is unreachable. -/

/-- Result of `parseEthernet` (packetParser.js). -/
structure EthRes where
  src : String
  dst : String
  etherType : Nat
  etherTypeName : String
deriving DecidableEq

/-- The `ipData` record built by `parseIP`. -/
structure IpData where
  version : Nat
  headerLength : Nat
  totalLength : Nat
  protocol : Nat
  src : String
  dst : String
  ttl : Nat
deriving DecidableEq

/-- Result of `parseIP`. -/
structure IpRes where
  src : String
  dst : String
  info : String
  headerLength : Nat
  protocol : Nat
  ipData : IpData
deriving DecidableEq

/-- The `tcpData` record built by `parseTCP`. -/
structure TcpData where
  srcPort : Nat
  dstPort : Nat
  flags : String
  seqNumber : Nat
  ackNumber : Nat
  dataOffset : Nat
deriving DecidableEq

/-- Result of `parseTCP`. -/
structure TcpRes where
  info : String
  headerLength : Nat
  tcpData : TcpData
deriving DecidableEq

/-- The `udpData` record built by `parseUDP`. -/
structure UdpData where
  srcPort : Nat
  dstPort : Nat
  length : Nat
deriving DecidableEq

/-- Result of `parseUDP`. -/
structure UdpRes where
  info : String
  udpData : UdpData
deriving DecidableEq

/-- The `icmpData` record built by `parseICMP`. -/
structure IcmpData where
  type : Nat
  code : Nat
  typeName : String
deriving DecidableEq

/-- Result of `parseICMP`. -/
structure IcmpRes where
  info : String
  icmpData : IcmpData
deriving DecidableEq

/-- The truncated raw-bytes reference stored on a decoded packet. -/
structure RawPreview where
  length : Nat
  preview : List Nat
deriving DecidableEq

/-- The structured packet object built by `parsePacket`
(packetParser.js).  Fields that JS adds dynamically on some paths only
(`etherType`, `ip`, `tcp`, `udp`, `icmp`, `originalLength`) are `Option`s
that are `none` when the JS property is absent. -/
structure Packet where
  number : Nat
  frameNumber : Nat
  timestamp : ℚ
  length : Nat
  capturedLength : Nat
  protocols : List String
  src : Option String
  dst : Option String
  info : String
  raw : Option RawPreview
  etherType : Option Nat
  ip : Option IpData
  tcp : Option TcpData
  udp : Option UdpData
  icmp : Option IcmpData
  originalLength : Option Nat
deriving DecidableEq, Inhabited

/-- EtherType display name (packetParser.js `parseEthernet`). -/
def etherTypeNameOf (et : Nat) : String :=
  if et = 0x0800 then "IPv4"
  else if et = 0x0806 then "ARP"
  else if et = 0x86DD then "IPv6"
  else "0x" ++ hex4 et

/-- `parseEthernet` of packetParser.js. -/
def parseEthernet (buffer : List Nat) : Option EthRes :=
  if buffer.length < 14 then none
  else
    some { src := macString (bufSlice buffer 6 12)
           dst := macString (bufSlice buffer 0 6)
           etherType := readUInt16BE buffer 12
           etherTypeName := etherTypeNameOf (readUInt16BE buffer 12) }

/-- IP protocol display name (packetParser.js `parseIP`). -/
def ipProtocolNameOf (p : Nat) : String :=
  if p = 1 then "ICMP" else if p = 6 then "TCP" else if p = 17 then "UDP" else "Unknown"

/-- `parseIP` of packetParser.js. -/
def parseIP (buffer : List Nat) : Option IpRes :=
  if buffer.length < 20 then none
  else
    let version := readU8 buffer 0 / 16 % 16
    let headerLength := readU8 buffer 0 % 16 * 4
    if version ≠ 4 ∨ headerLength < 20 ∨ buffer.length < headerLength then none
    else
      let totalLength := readUInt16BE buffer 2
      let protocol := readU8 buffer 9
      let srcIP := ipString (readU8 buffer 12) (readU8 buffer 13) (readU8 buffer 14) (readU8 buffer 15)
      let dstIP := ipString (readU8 buffer 16) (readU8 buffer 17) (readU8 buffer 18) (readU8 buffer 19)
      let info := ipProtocolNameOf protocol ++ " " ++ srcIP ++ " → " ++ dstIP ++ " Len=" ++ toString totalLength
      some { src := srcIP, dst := dstIP, info := info
             headerLength := headerLength, protocol := protocol
             ipData := { version := version, headerLength := headerLength
                         totalLength := totalLength, protocol := protocol
                         src := srcIP, dst := dstIP, ttl := readU8 buffer 8 } }

/-- The TCP flag-name list from the bits of the flags byte. -/
def tcpFlagNames (f : Nat) : List String :=
  (if f.testBit 0 then ["FIN"] else []) ++ (if f.testBit 1 then ["SYN"] else []) ++
  (if f.testBit 2 then ["RST"] else []) ++ (if f.testBit 3 then ["PSH"] else []) ++
  (if f.testBit 4 then ["ACK"] else []) ++ (if f.testBit 5 then ["URG"] else [])

/-- `parseTCP` of packetParser.js. -/
def parseTCP (buffer : List Nat) : Option TcpRes :=
  if buffer.length < 20 then none
  else
    let srcPort := readUInt16BE buffer 0
    let dstPort := readUInt16BE buffer 2
    let dataOffset := readU8 buffer 12 / 16 * 4
    let flags := tcpFlagNames (readU8 buffer 13)
    let info := toString srcPort ++ " → " ++ toString dstPort ++ " [" ++
      String.intercalate ", " flags ++ "] Seq=0 Ack=0"
    some { info := info, headerLength := dataOffset
           tcpData := { srcPort := srcPort, dstPort := dstPort
                        flags := String.intercalate ", " flags
                        seqNumber := readUInt32BE buffer 4
                        ackNumber := readUInt32BE buffer 8
                        dataOffset := dataOffset } }

/-- `parseUDP` of packetParser.js. -/
def parseUDP (buffer : List Nat) : Option UdpRes :=
  if buffer.length < 8 then none
  else
    let srcPort := readUInt16BE buffer 0
    let dstPort := readUInt16BE buffer 2
    let len := readUInt16BE buffer 4
    some { info := toString srcPort ++ " → " ++ toString dstPort ++ " Len=" ++ toString len
           udpData := { srcPort := srcPort, dstPort := dstPort, length := len } }

/-- ICMP type display name (packetParser.js `parseICMP`). -/
def icmpTypeNameOf (t : Nat) : String :=
  if t = 0 then "Echo Reply"
  else if t = 3 then "Destination Unreachable"
  else if t = 8 then "Echo Request"
  else if t = 11 then "Time Exceeded"
  else "Type " ++ toString t

/-- `parseICMP` of packetParser.js. -/
def parseICMP (buffer : List Nat) : Option IcmpRes :=
  if buffer.length < 8 then none
  else
    let t := readU8 buffer 0
    let c := readU8 buffer 1
    some { info := icmpTypeNameOf t ++ " (code " ++ toString c ++ ")"
           icmpData := { type := t, code := c, typeName := icmpTypeNameOf t } }

/-- The freshly initialized packet object of `parsePacket` before any
layer parsing. -/
def initPacket (packetNumber : Nat) (timestamp : ℚ) (capturedLength : Nat) : Packet :=
  { number := packetNumber, frameNumber := packetNumber, timestamp := timestamp
    length := capturedLength, capturedLength := capturedLength
    protocols := [], src := none, dst := none, info := "", raw := none
    etherType := none, ip := none, tcp := none, udp := none, icmp := none
    originalLength := none }

/-- Layer-2 step of `parsePacket`: Ethernet II when `linkType = 1` and at
least 14 bytes are present; returns the updated packet and the new offset. -/
def layer2 (packetData : List Nat) (p : Packet) (linkType : Nat) : Packet × Nat :=
  if linkType = 1 ∧ 14 ≤ packetData.length then
    match parseEthernet (packetData.take 14) with
    | some eth =>
        ({ p with src := some eth.src, dst := some eth.dst
                  protocols := p.protocols ++ ["Ethernet"]
                  etherType := some eth.etherType }, 14)
    | none => (p, 0)
  else (p, 0)

/-- Layer-3 step of `parsePacket`: IPv4 on the remaining bytes. -/
def layer3 (packetData : List Nat) (po : Packet × Nat) : Packet × Nat :=
  if po.2 < packetData.length then
    match parseIP (packetData.drop po.2) with
    | some r =>
        ({ po.1 with protocols := po.1.protocols ++ ["IP"]
                     src := some r.src, dst := some r.dst
                     info := r.info, ip := some r.ipData }, po.2 + r.headerLength)
    | none => po
  else po

/-- Layer-4 step of `parsePacket`: TCP, UDP or ICMP depending on the IP
protocol field.  Note the strict `>` bounds of the source:
`packetData.length > offset + 20` for TCP and `> offset + 8` for UDP. -/
def layer4 (packetData : List Nat) (po : Packet × Nat) : Packet :=
  if po.2 < packetData.length then
    let protoOpt := po.1.ip.map IpData.protocol
    if protoOpt = some 6 ∧ po.2 + 20 < packetData.length then
      match parseTCP (packetData.drop po.2) with
      | some r => { po.1 with protocols := po.1.protocols ++ ["TCP"], info := r.info, tcp := some r.tcpData }
      | none => po.1
    else if protoOpt = some 17 ∧ po.2 + 8 < packetData.length then
      match parseUDP (packetData.drop po.2) with
      | some r => { po.1 with protocols := po.1.protocols ++ ["UDP"], info := r.info, udp := some r.udpData }
      | none => po.1
    else if protoOpt = some 1 then
      match parseICMP (packetData.drop po.2) with
      | some r => { po.1 with protocols := po.1.protocols ++ ["ICMP"], info := r.info, icmp := some r.icmpData }
      | none => po.1
    else po.1
  else po.1

/-- Final step of `parsePacket`: default info string and truncated raw
preview. -/
def finishPacket (packetData : List Nat) (capturedLength : Nat) (p : Packet) : Packet :=
  let info := if p.info = "" then
      (if p.protocols = [] then "Unknown" else String.intercalate " / " p.protocols)
    else p.info
  let raw := if 0 < capturedLength then
      some ⟨capturedLength, packetData.take (min 64 packetData.length)⟩
    else none
  { p with info := info, raw := raw }

/-- `parsePacket` of packetParser.js: `null` on empty input, otherwise the
layered decode.  Total: every buffer read is length-guarded, so the JS
`try/catch` can never fire. -/
def parsePacket (packetData : List Nat) (packetNumber : Nat) (timestamp : ℚ)
    (capturedLength : Nat) (linkType : Nat) : Option Packet :=
  if packetData.length = 0 then none
  else
    some (finishPacket packetData capturedLength
      (layer4 packetData (layer3 packetData
        (layer2 packetData (initPacket packetNumber timestamp capturedLength) linkType))))

/-! ## The alternate decoder of src/unnamed/part_000

A second `parsePacket` with link-type dispatch (Ethernet 1, Linux
cooked 113, raw IP 12, loopback 0).  Its buffer reads are *not* length
guarded; an out-of-range read throws and the surrounding
`try/catch { return null }` turns it into `null` — exactly the `Option`
monad, since the explicit `return null` branches (unsupported link type /
EtherType) produce the same value. -/

/-- Byte read that fails (throws in JS) when out of range:
`Buffer.readUInt8`. -/
def readU8x (b : List Nat) (i : Nat) : Option Nat :=
  if i < b.length then some (readU8 b i) else none

/-- Throwing 16-bit big-endian read: `Buffer.readUInt16BE`. -/
def readU16BEx (b : List Nat) (i : Nat) : Option Nat :=
  if i + 2 ≤ b.length then some (readUInt16BE b i) else none

/-- The packet record built by the part_000 `parsePacket`. -/
structure P0Packet where
  number : Nat
  timestamp : ℚ
  length : Nat
  src : String
  dst : String
  protocol : String
  protocolType : String
deriving DecidableEq

/-- part_000 `formatIPv4`: decimal bytes joined with `"."`. -/
def p0FormatIPv4 (bytes : List Nat) : String :=
  String.intercalate "." (bytes.map toString)

/-- part_000 `parseEthernet`: MAC slices never throw, the EtherType read
can. -/
def p0ParseEthernet (data : List Nat) (off : Nat) : Option (String × String × Nat) :=
  (readU16BEx data (off + 12)).map fun et =>
    (macString (bufSlice data off (off + 6)), macString (bufSlice data (off + 6) (off + 12)), et)

/-- part_000 `parseIPv4`: returns header length, source/destination IP
and protocol; throws when the version/IHL or protocol byte is out of
range. -/
def p0ParseIPv4 (data : List Nat) (off : Nat) : Option (Nat × String × String × Nat) :=
  match readU8x data off with
  | none => none
  | some versionIHL =>
    let headerLength := versionIHL % 16 * 4
    let sourceIP := p0FormatIPv4 (bufSlice data (off + 12) (off + 16))
    let destinationIP := p0FormatIPv4 (bufSlice data (off + 16) (off + 20))
    (readU8x data (off + 9)).map fun protocol => (headerLength, sourceIP, destinationIP, protocol)

/-- part_000 `parseTCP` (ports only). -/
def p0ParseTCP (data : List Nat) (off : Nat) : Option (Nat × Nat) :=
  match readU16BEx data off, readU16BEx data (off + 2) with
  | some sp, some dp => some (sp, dp)
  | _, _ => none

/-- part_000 `parseUDP` (ports only). -/
def p0ParseUDP (data : List Nat) (off : Nat) : Option (Nat × Nat) :=
  p0ParseTCP data off

/-- part_000 `parseARP` (sender/target IP from fixed offsets; slices never
throw). -/
def p0ParseARP (data : List Nat) (off : Nat) : String × String :=
  (p0FormatIPv4 (bufSlice data (off + 14) (off + 18)),
   p0FormatIPv4 (bufSlice data (off + 24) (off + 28)))

/-- The application-protocol guess from well-known TCP ports. -/
def p0TcpGuess (sp dp : Nat) : String :=
  if sp = 80 ∨ dp = 80 ∨ sp = 8080 ∨ dp = 8080 then "HTTP"
  else if sp = 443 ∨ dp = 443 then "TLS"
  else "Unknown"

/-- The IPv4-and-transport chain shared by the four link-type cases of the
part_000 `parsePacket`: yields (src, dst, protocol, protocolType). -/
def p0IpChain (data : List Nat) (off : Nat) : Option (String × String × String × String) :=
  match p0ParseIPv4 data off with
  | none => none
  | some (hlen, sip, dip, proto) =>
    if proto = 6 then
      (p0ParseTCP data (off + hlen)).map fun (sp, dp) => (sip, dip, "TCP", p0TcpGuess sp dp)
    else if proto = 17 then
      (p0ParseUDP data (off + hlen)).map fun (sp, dp) =>
        (sip, dip, "UDP", if sp = 53 ∨ dp = 53 then "DNS" else "Unknown")
    else if proto = 1 then some (sip, dip, "ICMP", "ICMP")
    else some (sip, dip, "IP(" ++ toString proto ++ ")", "Unknown")

/-- part_000 `parsePacket`: dispatch on link type; unsupported link types
and EtherTypes, and any out-of-range read, produce `null`. -/
def p0ParsePacket (data : List Nat) (number : Nat) (timestamp : ℚ) (length : Nat)
    (linkType : Nat) : Option P0Packet :=
  let mk := fun (r : String × String × String × String) =>
    some { number := number, timestamp := timestamp, length := length
           src := r.1, dst := r.2.1, protocol := r.2.2.1
           protocolType := r.2.2.2 : P0Packet }
  if linkType = 1 then
    match p0ParseEthernet data 0 with
    | none => none
    | some (_, _, et) =>
      if et = 0x0800 then (p0IpChain data 14).bind mk
      else if et = 0x0806 then
        let arp := p0ParseARP data 14
        mk (arp.1, arp.2, "ARP", "ARP")
      else none
  else if linkType = 113 then
    match readU16BEx data 14 with
    | none => none
    | some et => if et = 0x0800 then (p0IpChain data 16).bind mk else none
  else if linkType = 12 then (p0IpChain data 0).bind mk
  else if linkType = 0 then (p0IpChain data 4).bind mk
  else none

/-! ## pcapReader.js — header codecs -/

/-- Parsed classic global header (pcapReader.js `parseGlobalHeader`). -/
structure GlobalHeader where
  magicNumber : Nat
  isLittleEndian : Bool
  versionMajor : Nat
  versionMinor : Nat
  timezone : Nat
  timestampAccuracy : Nat
  snaplen : Nat
  linkType : Nat
deriving DecidableEq

/-- `parseGlobalHeader`: the 4-byte magic is read big-endian;
`0xa1b2c3d4` selects big-endian field decoding, `0xd4c3b2a1` little-endian,
anything else throws.  The JS branches per field on `isLittleEndian`;
here the two whole-record branches are textually separated, field for
field the same reads. -/
def parseGlobalHeader (buffer : List Nat) : Except String GlobalHeader :=
  let magicNumber := readUInt32BE buffer 0
  if magicNumber = 0xa1b2c3d4 then
    .ok { magicNumber := magicNumber, isLittleEndian := false
          versionMajor := readUInt16BE buffer 4, versionMinor := readUInt16BE buffer 6
          timezone := readUInt32BE buffer 8, timestampAccuracy := readUInt32BE buffer 12
          snaplen := readUInt32BE buffer 16, linkType := readUInt32BE buffer 20 }
  else if magicNumber = 0xd4c3b2a1 then
    .ok { magicNumber := magicNumber, isLittleEndian := true
          versionMajor := readUInt16LE buffer 4, versionMinor := readUInt16LE buffer 6
          timezone := readUInt32LE buffer 8, timestampAccuracy := readUInt32LE buffer 12
          snaplen := readUInt32LE buffer 16, linkType := readUInt32LE buffer 20 }
  else .error ("Invalid PCAP magic number: 0x" ++ natToHexStr magicNumber)

/-- Parsed classic record header (pcapReader.js `parsePacketHeader`; the
part_002 variant is this function with `isLittleEndian := true`).  The JS
timestamp `sec * 1000 + usec / 1000` uses floating-point division; it is
modelled exactly in `ℚ`. -/
structure PacketHeaderRec where
  timestamp : ℚ
  timestampSec : Nat
  timestampUsec : Nat
  capturedLength : Nat
  originalLength : Nat
deriving DecidableEq

/-- `parsePacketHeader` of pcapReader.js. -/
def parsePacketHeader (buffer : List Nat) (isLittleEndian : Bool) : PacketHeaderRec :=
  let s := readUInt32 buffer 0 isLittleEndian
  let u := readUInt32 buffer 4 isLittleEndian
  { timestamp := (s : ℚ) * 1000 + (u : ℚ) / 1000
    timestampSec := s, timestampUsec := u
    capturedLength := readUInt32 buffer 8 isLittleEndian
    originalLength := readUInt32 buffer 12 isLittleEndian }

/-! ## pcapReader.js — classic stream parsing (`parsePcapStream`)

One `data` event appends the chunk to the leftover buffer, parses the
global header once 24 bytes are available (rejecting the promise and
destroying the stream on a bad magic), then consumes complete
16-byte-header + payload records while they fit.  The state below is the
closure state of `parsePcapStream`; `errored` models the rejected
promise (after which no further events are processed). -/

/-- Closure state of `parsePcapStream`. -/
structure PcapStreamState where
  leftover : List Nat
  packets : List Packet
  packetNumber : Nat
  globalHeaderParsed : Bool
  endian : Bool
  linkType : Option Nat
  errored : Bool
deriving DecidableEq

/-- Initial stream state (`leftover = Buffer.alloc(0)`, `packetNumber = 1`,
`linkType = null`). -/
def initPcapState : PcapStreamState :=
  { leftover := [], packets := [], packetNumber := 1
    globalHeaderParsed := false, endian := false, linkType := none, errored := false }

/-- The record-consuming `while` loop of `parsePcapStream`: while at least
16 bytes are buffered, read the record header; stop (consuming nothing)
if the full payload is not buffered yet; otherwise slice the payload,
decode it (`parsePacket`; a `null` decode is dropped), and continue.
`linkType.getD 0` renders the JS `linkType` variable, `null` only before
the global header is parsed, i.e. never when this loop runs. -/
def loopPackets (endian : Bool) (linkType : Option Nat) (leftover : List Nat)
    (packets : List Packet) (num : Nat) : List Nat × List Packet × Nat :=
  if h : 16 ≤ leftover.length then
    let ph := parsePacketHeader (leftover.take 16) endian
    if leftover.length < 16 + ph.capturedLength then (leftover, packets, num)
    else
      let packetData := (leftover.drop 16).take ph.capturedLength
      let packets' := packets ++
        (parsePacket packetData num ph.timestamp ph.capturedLength (linkType.getD 0)).toList
      loopPackets endian linkType (leftover.drop (16 + ph.capturedLength)) packets' (num + 1)
  else (leftover, packets, num)
termination_by leftover.length
decreasing_by simp only [List.length_drop]; omega

/-- One `data` event of `parsePcapStream`. -/
def pcapProcessData (s : PcapStreamState) (chunk : List Nat) : PcapStreamState :=
  if s.errored then s
  else
    let leftover := s.leftover ++ chunk
    if s.globalHeaderParsed then
      let r := loopPackets s.endian s.linkType leftover s.packets s.packetNumber
      { s with leftover := r.1, packets := r.2.1, packetNumber := r.2.2 }
    else if leftover.length < 24 then { s with leftover := leftover }
    else
      match parseGlobalHeader (leftover.take 24) with
      | .error _ => { s with errored := true, leftover := leftover }
      | .ok gh =>
        let r := loopPackets gh.isLittleEndian (some gh.linkType) (leftover.drop 24)
          s.packets s.packetNumber
        { s with leftover := r.1, packets := r.2.1, packetNumber := r.2.2
                 globalHeaderParsed := true, endian := gh.isLittleEndian
                 linkType := some gh.linkType }

/-- Feeding a whole sequence of chunks to `parsePcapStream`. -/
def pcapFeed (s : PcapStreamState) (chunks : List (List Nat)) : PcapStreamState :=
  chunks.foldl pcapProcessData s

/-- Everything observable about a classic stream parse: the rejection, or
the complete non-rejected state. -/
inductive PcapOutcome where
  | rejected : PcapOutcome
  | state (leftover : List Nat) (packets : List Packet) (packetNumber : Nat)
      (globalHeaderParsed : Bool) (endian : Bool) (linkType : Option Nat) : PcapOutcome
deriving DecidableEq

/-- Observation map: a rejected promise hides the internal buffer. -/
def observePcap (s : PcapStreamState) : PcapOutcome :=
  if s.errored then .rejected
  else .state s.leftover s.packets s.packetNumber s.globalHeaderParsed s.endian s.linkType

/-- The settled promise of the classic path of `readPcapFile`: `error` if
the stream was rejected, otherwise the header information and packet
list. -/
def runClassic (chunks : List (List Nat)) : Except Unit (Option Nat × Bool × List Packet) :=
  let s := pcapFeed initPcapState chunks
  if s.errored then .error () else .ok (s.linkType, s.endian, s.packets)

/-! ## pcapReader.js — PCAPNG stream parsing (`parsePcapNgStream`) -/

/-- Accumulator state of `parsePcapNgStream` (besides the leftover
buffer): packets, packet number, currently tracked link type (default 1 =
Ethernet) and byte offset. -/
structure NgAcc where
  packets : List Packet
  packetNumber : Nat
  linkType : Nat
  offset : Nat
deriving DecidableEq

/-- Initial PCAPNG accumulator. -/
def initNgAcc : NgAcc := { packets := [], packetNumber := 1, linkType := 1, offset := 0 }

/-- Block dispatch of `parsePcapNgStream`: IDB (type 1) updates the link
type; EPB/SPB (6/3) extracts lengths and the split 64-bit timestamp
(BigInt maths, nanoseconds truncated to milliseconds) and decodes the
embedded packet.  Unknown types fall through (the block was already
consumed by declared length).  Reads are modelled zero-padded; in JS the
`originalLen` read would throw for a block of declared length 20–23,
a corner no theorem below touches. -/
def ngHandleBlock (s : NgAcc) (blockType : Nat) (blockData : List Nat) : NgAcc :=
  if blockType = 1 then
    if 20 ≤ blockData.length then { s with linkType := readUInt16LE blockData 16 } else s
  else if blockType = 6 ∨ blockType = 3 then
    if 20 ≤ blockData.length then
      let capturedLen := readUInt32LE blockData 16
      let originalLen := readUInt32LE blockData 20
      let timestamp : Nat :=
        (readUInt32LE blockData 8 * 4294967296 + readUInt32LE blockData 12) / 1000000
      if 24 + capturedLen ≤ blockData.length then
        let packetData := (blockData.drop 24).take capturedLen
        let s' := { s with packets := s.packets ++
          ((parsePacket packetData s.packetNumber (timestamp : ℚ) capturedLen s.linkType).map
            (fun p : Packet => { p with originalLength := some originalLen })).toList }
        { s' with packetNumber := s'.packetNumber + 1 }
      else s
    else s
  else s

/-- The block `while` loop of `parsePcapNgStream`.  NOTE (faithful to the
source): the block *type* is read from bytes 4–7 and the block *length*
from bytes 0–3 of the block — the PCAPNG format and the specification
both place the type first and the length second. -/
def ngLoop (leftover : List Nat) (s : NgAcc) : List Nat × NgAcc :=
  if h8 : 8 ≤ leftover.length then
    let blockType := readUInt32LE leftover 4
    let blockLength := readUInt32LE leftover 0
    if h : blockLength < 12 ∨ leftover.length < blockLength then (leftover, s)
    else
      ngLoop (leftover.drop blockLength)
        (ngHandleBlock { s with offset := s.offset + blockLength } blockType
          (leftover.take blockLength))
  else (leftover, s)
termination_by leftover.length
decreasing_by simp only [List.length_drop]; omega

/-- One `data` event of `parsePcapNgStream`. -/
def ngProcessData (st : List Nat × NgAcc) (chunk : List Nat) : List Nat × NgAcc :=
  ngLoop (st.1 ++ chunk) st.2

/-- Feeding all chunks to the PCAPNG path; it never rejects. -/
def ngFeed (chunks : List (List Nat)) : List Nat × NgAcc :=
  chunks.foldl ngProcessData ([], initNgAcc)

/-! ## pcapReader.js — validation and format detection -/

/-- `validatePcapFile` of pcapReader.js on the file's first four bytes:
little-endian check first, then a big-endian fallback. -/
def validatePcapFile (b : List Nat) : Bool :=
  if readUInt32LE b 0 = 0xa1b2c3d4 ∨ readUInt32LE b 0 = 0xd4c3b2a1 then true
  else if readUInt32BE b 0 = 0xa1b2c3d4 ∨ readUInt32BE b 0 = 0xd4c3b2a1 then true
  else false

/-- `validatePcapFile` of src/unnamed/part_002: little-endian check only. -/
def p2ValidatePcapFile (b : List Nat) : Bool :=
  if readUInt32LE b 0 = 0xa1b2c3d4 ∨ readUInt32LE b 0 = 0xd4c3b2a1 then true else false

/-- The PCAPNG detection of `readPcapFile`: first four bytes, read
big-endian, equal to the Section Header Block type `0x0a0d0d0a`. -/
def detectPcapNg (b : List Nat) : Bool := readUInt32BE b 0 == 0x0a0d0d0a

/-- `readPcapFile` on the whole byte stream: dispatches on the detected
format; the PCAPNG path always resolves, the classic path rejects on a
bad magic. -/
def readPcapModel (chunks : List (List Nat)) : Except Unit (List Packet) :=
  if detectPcapNg (chunks.flatten.take 4) then .ok (ngFeed chunks).2.packets
  else
    match runClassic chunks with
    | .error _ => .error ()
    | .ok r => .ok r.2.2

/-! ## simulatedCapture.js — the replay engine

State of a `SimulatedCapture` instance.  `timer : Bool` models
`this.timer`: whether a `setTimeout` delivery is pending (`clearTimeout`
sets it to `false`).  Wall-clock values (`startTime`, the actual delay
`timeScale / speed`) do not influence which callbacks fire in which
order, so time itself is not modelled; the pending timer is fired by the
explicit driver `runTimers`.  The packet and stats callbacks are modelled
as always installed (as in the spec's scenario); their invocations are
returned as an event trace. -/

/-- The stats payload passed to the stats callback in `sendPacket`. -/
structure StatsSnapshot where
  isCapturing : Bool
  isPaused : Bool
  currentIndex : Nat
  totalPackets : Nat
  progress : ℚ
deriving DecidableEq

/-- One observable callback invocation of the replay engine. -/
inductive SimEvent where
  | packetEv (p : Packet) : SimEvent
  | statsEv (st : StatsSnapshot) : SimEvent
deriving DecidableEq

/-- The packets delivered in an event trace, in order. -/
def packetEvList (evs : List SimEvent) : List Packet :=
  evs.filterMap fun e => match e with | .packetEv p => some p | _ => none

/-- The stats snapshots in an event trace, in order. -/
def statsEvList (evs : List SimEvent) : List StatsSnapshot :=
  evs.filterMap fun e => match e with | .statsEv st => some st | _ => none

/-- The final stats event of a trace. -/
def lastStats (evs : List SimEvent) : Option StatsSnapshot := (statsEvList evs).getLast?

/-- Mutable state of a `SimulatedCapture`. -/
structure Sim where
  packets : List Packet
  currentIndex : Nat
  isCapturing : Bool
  isPaused : Bool
  speed : ℚ
  timer : Bool
  timeScale : ℚ
deriving DecidableEq

/-- A session state right after `loadFile` succeeded with packet list
`ps`: index 0, not capturing, not paused (`timeScale` is first assigned
in `start`; its pre-`start` value is never read). -/
def mkLoaded (ps : List Packet) : Sim :=
  { packets := ps, currentIndex := 0, isCapturing := false, isPaused := false
    speed := 1, timer := false, timeScale := 0 }

/-- One invocation of `sendPacket`: bail out (completing the capture when
the index has run off the end) unless capturing, unpaused and in range;
otherwise invoke the packet callback, invoke the stats callback with the
pre-increment index and `progress = index / total * 100`, increment the
index, and arm the timer for the next delivery. -/
def sendPacketStep (s : Sim) : Sim × List SimEvent :=
  if s.isCapturing = false ∨ s.isPaused = true ∨ s.packets.length ≤ s.currentIndex then
    (if s.packets.length ≤ s.currentIndex then { s with isCapturing := false } else s, [])
  else
    let p := s.packets.getD s.currentIndex default
    let st : StatsSnapshot :=
      { isCapturing := s.isCapturing, isPaused := s.isPaused
        currentIndex := s.currentIndex, totalPackets := s.packets.length
        progress := (s.currentIndex : ℚ) / (s.packets.length : ℚ) * 100 }
    ({ s with currentIndex := s.currentIndex + 1, timer := true }, [.packetEv p, .statsEv st])

/-- `start(packetCallback, statsCallback, options)`: throws
`"No packets loaded"` (before any mutation) on an empty packet buffer;
otherwise stores the speed (`options.speed || 1.0`), flags capturing,
computes `timeScale` from the first/last timestamps (or the 100 ms
default for fewer than 2 packets) and synchronously attempts the first
delivery.  Returns (thrown error, post state, events). -/
def startSim (s : Sim) (speed : ℚ) : Option String × Sim × List SimEvent :=
  if s.packets.length = 0 then (some "No packets loaded", s, [])
  else
    let s1 := { s with speed := if speed = 0 then 1 else speed
                       isCapturing := true, isPaused := false
                       timeScale := if 1 < s.packets.length then
                           ((s.packets.getLast?.getD default).timestamp -
                             (s.packets.headD default).timestamp) / (s.packets.length * 10)
                         else 100 }
    let r := sendPacketStep s1
    (none, r.1, r.2)

/-- `pause()`: only from capturing-and-not-paused; sets the pause flag and
synchronously cancels the pending delivery (`clearTimeout`). -/
def pauseSim (s : Sim) : Sim :=
  if s.isCapturing = true ∧ s.isPaused = false then
    { s with isPaused := true, timer := false }
  else s

/-- `resume()`: only from capturing-and-paused; clears the pause flag and
synchronously re-attempts delivery. -/
def resumeSim (s : Sim) : Sim × List SimEvent :=
  if s.isCapturing = true ∧ s.isPaused = true then
    sendPacketStep { s with isPaused := false }
  else (s, [])

/-- `stop()`: unconditional reset of the lifecycle flags and index, and
cancellation of any pending delivery. -/
def stopSim (s : Sim) : Sim :=
  { s with isCapturing := false, isPaused := false, currentIndex := 0, timer := false }

/-- `setSpeed(speed)`: clamp into [0.5, 10]. -/
def setSpeedSim (s : Sim) (speed : ℚ) : Sim :=
  { s with speed := max 0.5 (min 10 speed) }

/-- The record returned by `getStatus()`. -/
structure StatusRec where
  isCapturing : Bool
  isPaused : Bool
  currentIndex : Nat
  totalPackets : Nat
  processedPackets : Nat
  progress : ℚ
deriving DecidableEq

/-- `getStatus()`. -/
def getStatus (s : Sim) : StatusRec :=
  { isCapturing := s.isCapturing, isPaused := s.isPaused
    currentIndex := s.currentIndex, totalPackets := s.packets.length
    processedPackets := s.currentIndex
    progress := if 0 < s.packets.length then
        (s.currentIndex : ℚ) / (s.packets.length : ℚ) * 100
      else 0 }

/-- Fire the pending `setTimeout` deliveries up to `fuel` times: each
firing consumes the pending timer and runs `sendPacket` once.  Stops when
no delivery is pending. -/
def runTimers : Nat → Sim → Sim × List SimEvent
  | 0, s => (s, [])
  | fuel + 1, s =>
    if s.timer then
      let r1 := sendPacketStep { s with timer := false }
      let r2 := runTimers fuel r1.1
      (r2.1, r1.2 ++ r2.2)
    else (s, [])

/-- The spec scenario of claim C2: start at speed 1 and let every pending
delivery fire (a session with `n` packets quiesces after at most `n`
timer firings: `n - 1` further deliveries and one final completion step). -/
def runReplay (ps : List Packet) : Sim × List SimEvent :=
  let r := startSim (mkLoaded ps) 1
  let r2 := runTimers ps.length r.2.1
  (r2.1, r.2.2 ++ r2.2)

/-! ## Helper lemmas: buffers across chunk boundaries -/

lemma getD_append_left {l l' : List Nat} {i d : Nat} (h : i < l.length) :
    (l ++ l').getD i d = l.getD i d := by
  simp [List.getD, List.getElem?_append, h]

lemma getD_take_eq {l : List Nat} {n i d : Nat} (h : i < n) :
    (l.take n).getD i d = l.getD i d := by
  simp [List.getD, List.getElem?_take, h]

lemma readUInt32BE_take {l : List Nat} {n i : Nat} (h : i + 4 ≤ n) :
    readUInt32BE (l.take n) i = readUInt32BE l i := by
  simp only [readUInt32BE, readU8]
  rw [getD_take_eq (by omega), getD_take_eq (by omega), getD_take_eq (by omega),
    getD_take_eq (by omega)]

/-! ## Helper lemmas: the classic stream loop composes over chunks -/

lemma loopPackets_stop_small {e : Bool} {lt : Option Nat} {l : List Nat}
    {ps : List Packet} {n : Nat} (h : l.length < 16) :
    loopPackets e lt l ps n = (l, ps, n) := by
  rw [loopPackets]
  simp [Nat.not_le.2 h]

lemma loopPackets_nil {e : Bool} {lt : Option Nat} {ps : List Packet} {n : Nat} :
    loopPackets e lt [] ps n = ([], ps, n) :=
  loopPackets_stop_small (by simp)

lemma loopPackets_stop_incomplete {e : Bool} {lt : Option Nat} {l : List Nat}
    {ps : List Packet} {n : Nat} (h16 : 16 ≤ l.length)
    (h : l.length < 16 + (parsePacketHeader (l.take 16) e).capturedLength) :
    loopPackets e lt l ps n = (l, ps, n) := by
  rw [loopPackets]
  simp [h16, h]

lemma loopPackets_consume {e : Bool} {lt : Option Nat} {l : List Nat}
    {ps : List Packet} {n : Nat} (h16 : 16 ≤ l.length)
    (h : 16 + (parsePacketHeader (l.take 16) e).capturedLength ≤ l.length) :
    loopPackets e lt l ps n =
      loopPackets e lt (l.drop (16 + (parsePacketHeader (l.take 16) e).capturedLength))
        (ps ++ (parsePacket ((l.drop 16).take (parsePacketHeader (l.take 16) e).capturedLength)
          n (parsePacketHeader (l.take 16) e).timestamp
          (parsePacketHeader (l.take 16) e).capturedLength (lt.getD 0)).toList)
        (n + 1) := by
  rw [loopPackets]
  simp [h16, Nat.not_lt.2 h]

/-- Suspending on a partial record and resuming with more bytes consumes
exactly what a single run over the concatenation consumes. -/
lemma loopPackets_append (e : Bool) (lt : Option Nat) (b : List Nat) :
    ∀ (l : List Nat) (ps : List Packet) (n : Nat),
      loopPackets e lt ((loopPackets e lt l ps n).1 ++ b)
        (loopPackets e lt l ps n).2.1 (loopPackets e lt l ps n).2.2 =
      loopPackets e lt (l ++ b) ps n := by
  suffices H : ∀ (N : Nat) (l : List Nat), l.length ≤ N → ∀ (ps : List Packet) (n : Nat),
      loopPackets e lt ((loopPackets e lt l ps n).1 ++ b)
        (loopPackets e lt l ps n).2.1 (loopPackets e lt l ps n).2.2 =
      loopPackets e lt (l ++ b) ps n by
    exact fun l ps n => H l.length l le_rfl ps n
  intro N
  induction N with
  | zero =>
    intro l hl ps n
    have hnil : l = [] := List.eq_nil_of_length_eq_zero (Nat.le_zero.mp hl)
    subst hnil
    rw [loopPackets_nil]
  | succ N ih =>
    intro l hl ps n
    by_cases h16 : 16 ≤ l.length
    · by_cases hcl : l.length < 16 + (parsePacketHeader (l.take 16) e).capturedLength
      · rw [loopPackets_stop_incomplete h16 hcl]
      · have hcl' : 16 + (parsePacketHeader (l.take 16) e).capturedLength ≤ l.length :=
          Nat.not_lt.mp hcl
        have h16' : 16 ≤ (l ++ b).length := by simp; omega
        have hhd : (l ++ b).take 16 = l.take 16 := List.take_append_of_le_length h16
        have hcl'' : 16 + (parsePacketHeader ((l ++ b).take 16) e).capturedLength ≤
            (l ++ b).length := by rw [hhd]; simp; omega
        rw [loopPackets_consume h16 hcl', loopPackets_consume h16' hcl'']
        rw [hhd]
        rw [List.drop_append_of_le_length (by omega : 16 + _ ≤ l.length),
          List.drop_append_of_le_length h16,
          List.take_append_of_le_length (by simp; omega :
            (parsePacketHeader (l.take 16) e).capturedLength ≤ (l.drop 16).length)]
        exact ih _ (by simp; omega) _ _
    · rw [loopPackets_stop_small (Nat.not_le.mp h16)]

/-- Two consecutive `data` events are observably the same as one event
carrying the concatenated chunk. -/
lemma pcapProcessData_append (s : PcapStreamState) (a b : List Nat) :
    observePcap (pcapProcessData (pcapProcessData s a) b) =
    observePcap (pcapProcessData s (a ++ b)) := by
  obtain ⟨lo, pk, num, ghp, en, olt, err⟩ := s
  cases err with
  | true => rfl
  | false =>
    cases ghp with
    | true =>
      have key := loopPackets_append en olt b (lo ++ a) pk num
      simp only [pcapProcessData]
      simp only [observePcap]
      simp [key, List.append_assoc]
    | false =>
      by_cases h24 : (lo ++ a).length < 24
      · have h24n : lo.length + a.length < 24 := by simpa using h24
        have h1 : pcapProcessData ⟨lo, pk, num, false, en, olt, false⟩ a =
            ⟨lo ++ a, pk, num, false, en, olt, false⟩ := by
          simp [pcapProcessData, h24n]
        rw [h1]
        simp only [pcapProcessData]
        simp [List.append_assoc]
      · have h24n : ¬ lo.length + a.length < 24 := by
          simp only [List.length_append] at h24; omega
        have h24n' : ¬ lo.length + (a.length + b.length) < 24 := by omega
        have hlen : 24 ≤ (lo ++ a).length := Nat.not_lt.mp h24
        have hhd : (lo ++ (a ++ b)).take 24 = (lo ++ a).take 24 := by
          rw [← List.append_assoc]
          exact List.take_append_of_le_length hlen
        cases hg : parseGlobalHeader ((lo ++ a).take 24) with
        | error msg =>
          have h1 : pcapProcessData ⟨lo, pk, num, false, en, olt, false⟩ a =
              ⟨lo ++ a, pk, num, false, en, olt, true⟩ := by
            simp [pcapProcessData, h24n, hg]
          rw [h1]
          simp only [pcapProcessData, observePcap]
          simp [h24n', hhd, hg]
        | ok gh =>
          have key := loopPackets_append gh.isLittleEndian (some gh.linkType) b
            ((lo ++ a).drop 24) pk num
          have hdrp : (lo ++ (a ++ b)).drop 24 = (lo ++ a).drop 24 ++ b := by
            rw [← List.append_assoc]
            exact List.drop_append_of_le_length hlen
          have h1 : pcapProcessData ⟨lo, pk, num, false, en, olt, false⟩ a =
              ⟨(loopPackets gh.isLittleEndian (some gh.linkType) ((lo ++ a).drop 24) pk num).1,
               (loopPackets gh.isLittleEndian (some gh.linkType) ((lo ++ a).drop 24) pk num).2.1,
               (loopPackets gh.isLittleEndian (some gh.linkType) ((lo ++ a).drop 24) pk num).2.2,
               true, gh.isLittleEndian, some gh.linkType, false⟩ := by
            simp [pcapProcessData, h24n, hg]
          rw [h1]
          simp only [pcapProcessData, observePcap]
          simp [h24n', hhd, hg, hdrp, key]

/-- A non-empty chunk sequence is observably the same as its
concatenation fed as one chunk. -/
lemma pcapFeed_cons_flatten : ∀ (cs : List (List Nat)) (c : List Nat) (s : PcapStreamState),
    observePcap (pcapFeed s (c :: cs)) = observePcap (pcapProcessData s (c :: cs).flatten) := by
  intro cs
  induction cs with
  | nil =>
    intro c s
    simp [pcapFeed]
  | cons c' cs' ih =>
    intro c s
    have h1 : pcapFeed s (c :: c' :: cs') = pcapFeed (pcapProcessData s c) (c' :: cs') := rfl
    rw [h1, ih, pcapProcessData_append]
    simp

/-! ## Concrete inputs used by the claim theorems -/

/-- A big-endian classic global header: version 2.4, snaplen 65535,
link type 1. -/
def c1BufBE : List Nat :=
  [0xa1, 0xb2, 0xc3, 0xd4, 0, 2, 0, 4, 0, 0, 0, 0, 0, 0, 0, 0, 0, 0, 255, 255, 0, 0, 0, 1]

/-- The same header in little-endian encoding. -/
def c1BufLE : List Nat :=
  [0xd4, 0xc3, 0xb2, 0xa1, 2, 0, 4, 0, 0, 0, 0, 0, 0, 0, 0, 0, 255, 255, 0, 0, 1, 0, 0, 0]

/-- 24 bytes with an invalid magic (zero). -/
def c1BufBad : List Nat := List.replicate 24 0

/-- First 12 bytes of `c1BufLE` (first chunk of the split-header test). -/
def c7HdrA : List Nat := [0xd4, 0xc3, 0xb2, 0xa1, 2, 0, 4, 0, 0, 0, 0, 0]

/-- Last 12 bytes of `c1BufLE` (second chunk of the split-header test). -/
def c7HdrB : List Nat := [0, 0, 0, 0, 255, 255, 0, 0, 1, 0, 0, 0]

/-! ## Claim C1 — classic magic dispatch and whole-read failure -/

/-- C1: for every 24-byte classic global header the magic is read
big-endian; `0xa1b2c3d4` yields big-endian field decoding and
`0xd4c3b2a1` little-endian field decoding of the version, timezone,
sigfigs, snaplen and link-type fields; any other magic makes
`parseGlobalHeader` throw, and a stream whose first 24 bytes carry such a
magic is rejected as a whole — `runClassic` returns an error and no
packet list. -/
theorem c1_magic_dispatch :
    (∀ buf : List Nat, buf.length = 24 →
      (readUInt32BE buf 0 = 0xa1b2c3d4 →
        parseGlobalHeader buf = .ok ⟨0xa1b2c3d4, false, readUInt16BE buf 4, readUInt16BE buf 6,
          readUInt32BE buf 8, readUInt32BE buf 12, readUInt32BE buf 16, readUInt32BE buf 20⟩) ∧
      (readUInt32BE buf 0 = 0xd4c3b2a1 →
        parseGlobalHeader buf = .ok ⟨0xd4c3b2a1, true, readUInt16LE buf 4, readUInt16LE buf 6,
          readUInt32LE buf 8, readUInt32LE buf 12, readUInt32LE buf 16, readUInt32LE buf 20⟩) ∧
      (readUInt32BE buf 0 ≠ 0xa1b2c3d4 → readUInt32BE buf 0 ≠ 0xd4c3b2a1 →
        parseGlobalHeader buf =
          .error ("Invalid PCAP magic number: 0x" ++ natToHexStr (readUInt32BE buf 0)))) ∧
    (∀ chunks : List (List Nat), 24 ≤ chunks.flatten.length →
      readUInt32BE chunks.flatten 0 ≠ 0xa1b2c3d4 →
      readUInt32BE chunks.flatten 0 ≠ 0xd4c3b2a1 →
      runClassic chunks = .error ()) := by
  constructor
  · intro buf _
    refine ⟨fun h => ?_, fun h => ?_, fun h1 h2 => ?_⟩
    · simp only [parseGlobalHeader]
      rw [h]
      norm_num
    · simp only [parseGlobalHeader]
      rw [h]
      norm_num
    · simp only [parseGlobalHeader]
      rw [if_neg h1, if_neg h2]
  · intro chunks hlen h1 h2
    have hobs : observePcap (pcapFeed initPcapState chunks) =
        observePcap (pcapProcessData initPcapState chunks.flatten) := by
      cases chunks with
      | nil => simp at hlen
      | cons c cs => exact pcapFeed_cons_flatten cs c _
    have hmagic : readUInt32BE (chunks.flatten.take 24) 0 = readUInt32BE chunks.flatten 0 :=
      readUInt32BE_take (by omega)
    have hg : parseGlobalHeader (chunks.flatten.take 24) =
        .error ("Invalid PCAP magic number: 0x" ++ natToHexStr (readUInt32BE chunks.flatten 0)) := by
      simp only [parseGlobalHeader, hmagic]
      rw [if_neg h1, if_neg h2]
    have hrej : observePcap (pcapProcessData initPcapState chunks.flatten) = .rejected := by
      have hnl : ¬ chunks.flatten.length < 24 := Nat.not_lt.mpr hlen
      have hnl' : ¬ (List.map List.length chunks).sum < 24 := by simpa using hnl
      simp [pcapProcessData, observePcap, initPcapState, hg, hnl, hnl']
    have herr : (pcapFeed initPcapState chunks).errored = true := by
      by_contra hne
      have hco := hobs.trans hrej
      simp [observePcap, hne] at hco
    simp [runClassic, herr]

/-- C1 witness: the two endianness cases and the invalid-magic rejection
at concrete 24-byte headers. -/
theorem c1_magic_dispatch_witness :
    parseGlobalHeader c1BufBE = .ok ⟨0xa1b2c3d4, false, 2, 4, 0, 0, 65535, 1⟩ ∧
    parseGlobalHeader c1BufLE = .ok ⟨0xd4c3b2a1, true, 2, 4, 0, 0, 65535, 1⟩ ∧
    parseGlobalHeader c1BufBad = .error "Invalid PCAP magic number: 0x0" ∧
    runClassic [c1BufBad] = .error () := by
  have h := c1_magic_dispatch
  exact ⟨(h.1 c1BufBE (by decide)).1 (by decide),
    (h.1 c1BufLE (by decide)).2.1 (by decide),
    (h.1 c1BufBad (by decide)).2.2 (by decide) (by decide),
    h.2 [c1BufBad] (by decide) (by decide) (by decide)⟩

/-! ## Claim C7 — chunking invariance of the classic stream reader -/

/-- C7: feeding any chunk sequence to the classic stream reader is
observably identical to feeding the whole byte stream as one chunk — the
same global-header information, packet list, packet numbering and
residual buffer (or the same rejection).  In particular the global header
split into two 12-byte chunks parses into exactly the
header-parsed state. -/
theorem c7_chunking_invariance :
    (∀ chunks : List (List Nat),
      observePcap (pcapFeed initPcapState chunks) =
      observePcap (pcapFeed initPcapState [chunks.flatten])) ∧
    pcapFeed initPcapState [c7HdrA, c7HdrB] =
      { leftover := [], packets := [], packetNumber := 1, globalHeaderParsed := true,
        endian := true, linkType := some 1, errored := false } := by
  constructor
  · intro chunks
    cases chunks with
    | nil => rfl
    | cons c cs => exact pcapFeed_cons_flatten cs c initPcapState
  · have e1 : pcapProcessData initPcapState c7HdrA =
        ⟨c7HdrA, [], 1, false, false, none, false⟩ := rfl
    have hg : parseGlobalHeader ((c7HdrA ++ c7HdrB).take 24) =
        .ok ⟨0xd4c3b2a1, true, 2, 4, 0, 0, 65535, 1⟩ := rfl
    have e2 : pcapProcessData ⟨c7HdrA, [], 1, false, false, none, false⟩ c7HdrB =
        ⟨[], [], 1, true, true, some 1, false⟩ := by
      simp only [pcapProcessData, hg]
      norm_num [c7HdrA, c7HdrB, loopPackets_nil]
    show pcapProcessData (pcapProcessData initPcapState c7HdrA) c7HdrB = _
    rw [e1, e2]

/-! ## Claim C3 — record-header timestamp arithmetic -/

/-- The spec's record-header example: `ts_sec = 1000`, `ts_usec = 500000`,
`caplen = origlen = 54`, little-endian. -/
def c3SpecBuf : List Nat :=
  [0xe8, 0x03, 0, 0, 0x20, 0xa1, 0x07, 0, 54, 0, 0, 0, 54, 0, 0, 0]

/-- A record header with `ts_sec = 1000`, `ts_usec = 500` (little-endian),
on which the code's un-truncated division is visible. -/
def c3FracBuf : List Nat :=
  [0xe8, 0x03, 0, 0, 0xf4, 0x01, 0, 0, 54, 0, 0, 0, 54, 0, 0, 0]

/-- C3 counterexample: the claim says the timestamp is
`ts_sec*1000 + ts_usec/1000` with the fraction truncated — an integer,
here 1000000.  The code performs exact (floating-point) division with no
truncation: for `ts_usec = 500` it produces 1000000.5. -/
theorem c3_timestamp_counterexample :
    (parsePacketHeader c3FracBuf true).timestamp = 1000000 + 1 / 2 ∧
    ((1000000 : ℚ) + 1 / 2) ≠ 1000000 := by
  constructor
  · show (1000 : ℚ) * 1000 + (500 : ℚ) / 1000 = 1000000 + 1 / 2
    norm_num
  · norm_num

/-- C3 amended: the timestamp is the exact value
`ts_sec * 1000 + ts_usec / 1000` — no truncation is applied, so the
result is an integer number of milliseconds exactly when `ts_usec` is a
multiple of 1000; the spec's example (`ts_sec = 1000`,
`ts_usec = 500000`, both lengths 54, little-endian) does yield the
integer 1000500. -/
theorem c3_timestamp_exact :
    (∀ (buffer : List Nat) (e : Bool),
      (parsePacketHeader buffer e).timestamp =
        ((parsePacketHeader buffer e).timestampSec : ℚ) * 1000 +
        ((parsePacketHeader buffer e).timestampUsec : ℚ) / 1000) ∧
    (∀ (buffer : List Nat) (e : Bool),
      (∃ z : ℤ, (parsePacketHeader buffer e).timestamp = (z : ℚ)) ↔
        (parsePacketHeader buffer e).timestampUsec % 1000 = 0) ∧
    parsePacketHeader c3SpecBuf true =
      { timestamp := 1000500, timestampSec := 1000, timestampUsec := 500000
        capturedLength := 54, originalLength := 54 } := by
  refine ⟨fun buffer e => rfl, fun buffer e => ?_, ?_⟩
  · set s := readUInt32 buffer 0 e with hs
    set u := readUInt32 buffer 4 e with hu
    show (∃ z : ℤ, (s : ℚ) * 1000 + (u : ℚ) / 1000 = (z : ℚ)) ↔ u % 1000 = 0
    constructor
    · rintro ⟨z, hz⟩
      have h2 : (u : ℚ) = ((z - s * 1000) * 1000 : ℤ) := by push_cast; linarith
      have h3 : (u : ℤ) = (z - s * 1000) * 1000 := by exact_mod_cast h2
      omega
    · intro h
      refine ⟨(s : ℤ) * 1000 + ((u / 1000 : ℕ) : ℤ), ?_⟩
      have h4 : (u / 1000 : ℕ) * 1000 = u :=
        Nat.div_mul_cancel (Nat.dvd_of_mod_eq_zero h)
      have h5 : ((u / 1000 : ℕ) : ℚ) * 1000 = (u : ℚ) := by exact_mod_cast h4
      have h6 : (u : ℚ) / 1000 = ((u / 1000 : ℕ) : ℚ) := by
        field_simp
        linarith [h5]
      have h7 : (((s : ℤ) * 1000 + ((u / 1000 : ℕ) : ℤ) : ℤ) : ℚ) =
          (s : ℚ) * 1000 + ((u / 1000 : ℕ) : ℚ) := by
        simp only [Int.cast_add, Int.cast_mul, Int.cast_natCast, Int.cast_ofNat]
      rw [h7, h6]
  · show ({ timestamp := (1000 : ℚ) * 1000 + (500000 : ℚ) / 1000, timestampSec := 1000
            timestampUsec := 500000, capturedLength := 54
            originalLength := 54 } : PacketHeaderRec) = _
    norm_num

/-! ## Claim C10 — validatePcapFile accepts exactly the two classic magics -/

/-- C10: `validatePcapFile` (both the pcapReader.js version with its
big-endian fallback and the part_002 little-endian-only version) returns
`true` exactly when the first four bytes read little-endian are
`0xa1b2c3d4` or `0xd4c3b2a1` — the fallback adds nothing because the two
accepted magics are byte reversals of each other.  Consequently a PCAPNG
capture (first bytes `0A 0D 0D 0A`) is rejected by validation even
though `readPcapFile` detects it and resolves successfully. -/
theorem c10_validate_magic :
    (∀ b : List Nat, b.length = 4 → (∀ x ∈ b, x < 256) →
      (validatePcapFile b = true ↔
        (readUInt32LE b 0 = 0xa1b2c3d4 ∨ readUInt32LE b 0 = 0xd4c3b2a1)) ∧
      p2ValidatePcapFile b = validatePcapFile b) ∧
    validatePcapFile [0x0a, 0x0d, 0x0d, 0x0a] = false ∧
    detectPcapNg [0x0a, 0x0d, 0x0d, 0x0a] = true ∧
    (∀ chunks : List (List Nat), detectPcapNg (chunks.flatten.take 4) = true →
      readPcapModel chunks = .ok (ngFeed chunks).2.packets) := by
  refine ⟨?_, by decide, by decide, ?_⟩
  · intro b hlen hbytes
    match b, hlen with
    | [x0, x1, x2, x3], _ =>
      have h0 : x0 < 256 := hbytes x0 (by simp)
      have h1 : x1 < 256 := hbytes x1 (by simp)
      have h2 : x2 < 256 := hbytes x2 (by simp)
      have h3 : x3 < 256 := hbytes x3 (by simp)
      constructor
      · simp only [validatePcapFile, readUInt32LE, readUInt32BE, readU8, List.getD]
        constructor
        · intro hv
          by_cases hle : x3 * 16777216 + x2 * 65536 + x1 * 256 + x0 = 0xa1b2c3d4 ∨
              x3 * 16777216 + x2 * 65536 + x1 * 256 + x0 = 0xd4c3b2a1
          · simpa using hle
          · exfalso
            rw [if_neg (by simpa using hle)] at hv
            have hbe : x0 * 16777216 + x1 * 65536 + x2 * 256 + x3 = 0xa1b2c3d4 ∨
                x0 * 16777216 + x1 * 65536 + x2 * 256 + x3 = 0xd4c3b2a1 := by
              by_contra hnbe
              rw [if_neg (by simpa using hnbe)] at hv
              exact Bool.false_ne_true hv
            simp only [not_or] at hle
            omega
        · intro hle
          rw [if_pos (by simpa using hle)]
      · simp only [validatePcapFile, p2ValidatePcapFile, readUInt32LE, readUInt32BE,
          readU8, List.getD]
        by_cases hle : x3 * 16777216 + x2 * 65536 + x1 * 256 + x0 = 0xa1b2c3d4 ∨
            x3 * 16777216 + x2 * 65536 + x1 * 256 + x0 = 0xd4c3b2a1
        · rw [if_pos (by simpa using hle), if_pos (by simpa using hle)]
        · rw [if_neg (by simpa using hle), if_neg (by simpa using hle)]
          by_cases hbe : x0 * 16777216 + x1 * 65536 + x2 * 256 + x3 = 0xa1b2c3d4 ∨
              x0 * 16777216 + x1 * 65536 + x2 * 256 + x3 = 0xd4c3b2a1
          · exfalso
            simp only [not_or] at hle
            omega
          · rw [if_neg (by simpa using hbe)]
  · intro chunks hng
    simp [readPcapModel, hng]

/-- C10 witness: a concrete little-endian classic magic is accepted, the
PCAPNG section-header magic is rejected by validation yet detected as
PCAPNG by the reader, and the PCAPNG path resolves. -/
theorem c10_validate_magic_witness :
    validatePcapFile [0xd4, 0xc3, 0xb2, 0xa1] = true ∧
    p2ValidatePcapFile [0xd4, 0xc3, 0xb2, 0xa1] = validatePcapFile [0xd4, 0xc3, 0xb2, 0xa1] ∧
    validatePcapFile [0x0a, 0x0d, 0x0d, 0x0a] = false ∧
    detectPcapNg [0x0a, 0x0d, 0x0d, 0x0a] = true := by
  have h := c10_validate_magic
  have hb := h.1 [0xd4, 0xc3, 0xb2, 0xa1] (by decide) (by decide)
  exact ⟨hb.1.mpr (Or.inl (by decide)), hb.2, h.2.1, h.2.2.1⟩

/-! ## Claim C5 — the 54-byte Ethernet/IPv4/TCP SYN frame -/

/-- A classic Ethernet II + IPv4 + TCP SYN frame of exactly 54 bytes:
EtherType `0x0800`, IHL 5, protocol 6, TCP flags byte `0x02`. -/
def c5Frame54 : List Nat :=
  [0xaa, 0xbb, 0xcc, 0xdd, 0xee, 0xff, 0x11, 0x22, 0x33, 0x44, 0x55, 0x66, 0x08, 0x00,
   0x45, 0x00, 0x00, 0x28, 0x00, 0x01, 0x00, 0x00, 0x40, 0x06, 0x00, 0x00,
   10, 0, 0, 1, 10, 0, 0, 2,
   0x04, 0xd2, 0x00, 0x50, 0, 0, 0, 1, 0, 0, 0, 0, 0x50, 0x02, 0x20, 0x00, 0, 0, 0, 0]

/-- The same frame with one extra payload byte (55 bytes). -/
def c5Frame55 : List Nat := c5Frame54 ++ [0]

/-- C5 divergence: the decoder requires strictly more than
`offset + 20` bytes for TCP (`packetData.length > offset + 20`), so the
54-byte SYN frame — 20 TCP bytes remaining after Ethernet and IP, the
TCP minimum — decodes to `[Ethernet, IP]` with no TCP layer, against the
spec's `[ethernet, ip, tcp]` with flag set `{SYN}`; one extra byte (55
in total) makes the very same headers decode with the TCP layer and the
single flag SYN. -/
theorem c5_tcp_boundary_bug :
    (parsePacket c5Frame54 1 0 54 1).map Packet.protocols = some ["Ethernet", "IP"] ∧
    (parsePacket c5Frame54 1 0 54 1).bind Packet.tcp = none ∧
    (parsePacket c5Frame55 1 0 55 1).map Packet.protocols = some ["Ethernet", "IP", "TCP"] ∧
    ((parsePacket c5Frame55 1 0 55 1).bind Packet.tcp).map TcpData.flags = some "SYN" := by
  refine ⟨?_, ?_, ?_, ?_⟩ <;> rfl

/-! ## Helper lemmas for claim C6: what each decode layer can change -/

lemma layer2_other {d : List Nat} {p : Packet} {lt : Nat} (h : lt ≠ 1) :
    layer2 d p lt = (p, 0) := by
  simp [layer2, h]

lemma layer3_meta (d : List Nat) (po : Packet × Nat) :
    (layer3 d po).1.number = po.1.number ∧
    (layer3 d po).1.timestamp = po.1.timestamp ∧
    (layer3 d po).1.length = po.1.length ∧
    (layer3 d po).1.capturedLength = po.1.capturedLength ∧
    (layer3 d po).1.raw = po.1.raw ∧
    (layer3 d po).1.etherType = po.1.etherType ∧
    ((layer3 d po).1.protocols = po.1.protocols ∨
      (layer3 d po).1.protocols = po.1.protocols ++ ["IP"]) := by
  unfold layer3
  by_cases h : po.2 < d.length
  · simp only [h, if_true]
    cases hm : parseIP (d.drop po.2) <;> simp
  · simp [h]

lemma layer4_meta (d : List Nat) (po : Packet × Nat) :
    (layer4 d po).number = po.1.number ∧
    (layer4 d po).timestamp = po.1.timestamp ∧
    (layer4 d po).length = po.1.length ∧
    (layer4 d po).capturedLength = po.1.capturedLength ∧
    (layer4 d po).raw = po.1.raw ∧
    (layer4 d po).etherType = po.1.etherType ∧
    ((layer4 d po).protocols = po.1.protocols ∨
      (layer4 d po).protocols = po.1.protocols ++ ["TCP"] ∨
      (layer4 d po).protocols = po.1.protocols ++ ["UDP"] ∨
      (layer4 d po).protocols = po.1.protocols ++ ["ICMP"]) := by
  unfold layer4
  by_cases h : po.2 < d.length
  · simp only [h, if_true]
    by_cases h6 : po.1.ip.map IpData.protocol = some 6 ∧ po.2 + 20 < d.length
    · simp only [h6, if_true]
      cases hm : parseTCP (d.drop po.2) <;> simp
    · simp only [h6, if_false]
      by_cases h17 : po.1.ip.map IpData.protocol = some 17 ∧ po.2 + 8 < d.length
      · simp only [h17, if_true]
        cases hm : parseUDP (d.drop po.2) <;> simp
      · simp only [h17, if_false]
        by_cases h1 : po.1.ip.map IpData.protocol = some 1
        · simp only [h1, if_true]
          cases hm : parseICMP (d.drop po.2) <;> simp
        · simp [h1]
  · simp [h]

lemma finishPacket_meta (d : List Nat) (cl : Nat) (p : Packet) :
    (finishPacket d cl p).number = p.number ∧
    (finishPacket d cl p).timestamp = p.timestamp ∧
    (finishPacket d cl p).length = p.length ∧
    (finishPacket d cl p).capturedLength = p.capturedLength ∧
    (finishPacket d cl p).protocols = p.protocols ∧
    (finishPacket d cl p).etherType = p.etherType ∧
    (finishPacket d cl p).raw =
      (if 0 < cl then some ⟨cl, d.take (min 64 d.length)⟩ else none) := by
  simp [finishPacket]

lemma readUInt16BE_take {l : List Nat} {n i : Nat} (h : i + 2 ≤ n) :
    readUInt16BE (l.take n) i = readUInt16BE l i := by
  simp only [readUInt16BE, readU8]
  rw [getD_take_eq (by omega), getD_take_eq (by omega)]

/-- Layer 2 under `linkType = 1` with at least 14 bytes: the Ethernet
layer is always populated, whatever the EtherType is. -/
lemma layer2_ethernet {data : List Nat} {p : Packet} (h : 14 ≤ data.length) :
    layer2 data p 1 =
      ({ p with src := some (macString (bufSlice (data.take 14) 6 12))
                dst := some (macString (bufSlice (data.take 14) 0 6))
                protocols := p.protocols ++ ["Ethernet"]
                etherType := some (readUInt16BE (data.take 14) 12) }, 14) := by
  have hlt : ¬ (data.take 14).length < 14 := by
    simp only [List.length_take]
    omega
  rw [layer2, if_pos (⟨rfl, h⟩ : (1 : Nat) = 1 ∧ 14 ≤ data.length)]
  rw [show parseEthernet (data.take 14) =
    some { src := macString (bufSlice (data.take 14) 6 12)
           dst := macString (bufSlice (data.take 14) 0 6)
           etherType := readUInt16BE (data.take 14) 12
           etherTypeName := etherTypeNameOf (readUInt16BE (data.take 14) 12) } from by
    rw [parseEthernet, if_neg hlt]]

/-- Whether a decoded packet claims an Ethernet layer. -/
def protoHasEthernet (p : Packet) : Bool := p.protocols.contains "Ethernet"

/-! ## Claim C6 — unsupported link-type / EtherType handling -/

/-- C6 counterexample: the part_000 `parsePacket` *drops* such frames.  A
14-byte Ethernet frame with the unhandled EtherType `0x86dd` (IPv6) and a
frame under the unhandled link type 147 both decode to `null`, not to a
retained packet record. -/
theorem c6_p0_drops_counterexample :
    p0ParsePacket [0xaa, 0xbb, 0xcc, 0xdd, 0xee, 0xff,
      0x11, 0x22, 0x33, 0x44, 0x55, 0x66, 0x86, 0xdd] 1 0 14 1 = none ∧
    p0ParsePacket [0x45, 0, 0, 20] 1 0 4 147 = none :=
  ⟨rfl, rfl⟩

/-- C6 amended: the two decoders disagree.  The part_000 `parsePacket`
returns `null` (dropping the frame) for every unrecognized link type and
for every Ethernet frame with an unrecognized EtherType, while the
packetParser.js `parsePacket` retains such frames — a record keeping the
frame number, timestamp, lengths and truncated raw bytes, with only the
layers it could decode: under an unrecognized link type it has no
Ethernet layer; under link type 1 the Ethernet layer is populated (with
the frame's EtherType recorded) for *every* EtherType, recognized or
not, since the decoder never gates on it. -/
theorem c6_unsupported_retention :
    (∀ (data : List Nat) (n : Nat) (ts : ℚ) (len lt : Nat),
      lt ≠ 0 → lt ≠ 1 → lt ≠ 12 → lt ≠ 113 →
      p0ParsePacket data n ts len lt = none) ∧
    (∀ (data : List Nat) (n : Nat) (ts : ℚ) (len : Nat), 14 ≤ data.length →
      readUInt16BE data 12 ≠ 0x0800 → readUInt16BE data 12 ≠ 0x0806 →
      p0ParsePacket data n ts len 1 = none) ∧
    (∀ (data : List Nat) (n : Nat) (ts : ℚ) (cl lt : Nat),
      data ≠ [] → lt ≠ 1 → 0 < cl →
      (parsePacket data n ts cl lt).map Packet.number = some n ∧
      (parsePacket data n ts cl lt).map Packet.timestamp = some ts ∧
      (parsePacket data n ts cl lt).map Packet.length = some cl ∧
      (parsePacket data n ts cl lt).map Packet.capturedLength = some cl ∧
      (parsePacket data n ts cl lt).map Packet.raw =
        some (some ⟨cl, data.take (min 64 data.length)⟩) ∧
      (parsePacket data n ts cl lt).map protoHasEthernet = some false) ∧
    (∀ (data : List Nat) (n : Nat) (ts : ℚ) (cl : Nat),
      14 ≤ data.length → 0 < cl →
      (parsePacket data n ts cl 1).map Packet.number = some n ∧
      (parsePacket data n ts cl 1).map Packet.timestamp = some ts ∧
      (parsePacket data n ts cl 1).map Packet.length = some cl ∧
      (parsePacket data n ts cl 1).map Packet.capturedLength = some cl ∧
      (parsePacket data n ts cl 1).map Packet.raw =
        some (some ⟨cl, data.take (min 64 data.length)⟩) ∧
      (parsePacket data n ts cl 1).map Packet.etherType =
        some (some (readUInt16BE data 12)) ∧
      (parsePacket data n ts cl 1).map protoHasEthernet = some true) := by
  refine ⟨?_, ?_, ?_, ?_⟩
  · intro data n ts len lt h0 h1 h12 h113
    simp [p0ParsePacket, h0, h1, h12, h113]
  · intro data n ts len hlen h8 h6
    simp only [p0ParsePacket, p0ParseEthernet, readU16BEx, if_pos (by omega : 12 + 2 ≤ data.length),
      Option.map_some, if_pos rfl]
    simp [h8, h6]
  · intro data n ts cl lt hne hlt hcl
    have hlen : ¬ data.length = 0 := by simpa using hne
    have h0 : parsePacket data n ts cl lt =
        some (finishPacket data cl (layer4 data (layer3 data (initPacket n ts cl, 0)))) := by
      rw [parsePacket, if_neg hlen, layer2_other hlt]
    obtain ⟨fn, ft, fl, fc, fp, _, fraw⟩ :=
      finishPacket_meta data cl (layer4 data (layer3 data (initPacket n ts cl, 0)))
    obtain ⟨n4, t4, l4, c4, r4, _, p4⟩ := layer4_meta data (layer3 data (initPacket n ts cl, 0))
    obtain ⟨n3, t3, l3, c3, r3, _, p3⟩ := layer3_meta data (initPacket n ts cl, 0)
    rw [h0]
    simp only [Option.map_some']
    refine ⟨?_, ?_, ?_, ?_, ?_, ?_⟩
    · rw [fn, n4, n3]; rfl
    · rw [ft, t4, t3]; rfl
    · rw [fl, l4, l3]; rfl
    · rw [fc, c4, c3]; rfl
    · rw [fraw, if_pos hcl]
    · rw [show (Packet.protocols (initPacket n ts cl) : List String) = [] from rfl] at p3
      simp only [protoHasEthernet, fp]
      rcases p3 with p3 | p3 <;> rcases p4 with p4 | p4 | p4 | p4 <;>
        rw [p4, p3] <;> rfl
  · intro data n ts cl hlen hcl
    have hne : ¬ data.length = 0 := by omega
    have h0 : parsePacket data n ts cl 1 =
        some (finishPacket data cl
          (layer4 data (layer3 data (layer2 data (initPacket n ts cl) 1)))) := by
      rw [parsePacket, if_neg hne]
    rw [h0, layer2_ethernet hlen]
    obtain ⟨fn, ft, fl, fc, fp, fe, fraw⟩ :=
      finishPacket_meta data cl (layer4 data (layer3 data
        ({ initPacket n ts cl with
           src := some (macString (bufSlice (data.take 14) 6 12))
           dst := some (macString (bufSlice (data.take 14) 0 6))
           protocols := (initPacket n ts cl).protocols ++ ["Ethernet"]
           etherType := some (readUInt16BE (data.take 14) 12) }, 14)))
    obtain ⟨n4, t4, l4, c4, r4, e4, p4⟩ := layer4_meta data (layer3 data
      ({ initPacket n ts cl with
         src := some (macString (bufSlice (data.take 14) 6 12))
         dst := some (macString (bufSlice (data.take 14) 0 6))
         protocols := (initPacket n ts cl).protocols ++ ["Ethernet"]
         etherType := some (readUInt16BE (data.take 14) 12) }, 14))
    obtain ⟨n3, t3, l3, c3, r3, e3, p3⟩ := layer3_meta data
      ({ initPacket n ts cl with
         src := some (macString (bufSlice (data.take 14) 6 12))
         dst := some (macString (bufSlice (data.take 14) 0 6))
         protocols := (initPacket n ts cl).protocols ++ ["Ethernet"]
         etherType := some (readUInt16BE (data.take 14) 12) }, 14)
    simp only [Option.map_some']
    refine ⟨?_, ?_, ?_, ?_, ?_, ?_, ?_⟩
    · rw [fn, n4, n3]; rfl
    · rw [ft, t4, t3]; rfl
    · rw [fl, l4, l3]; rfl
    · rw [fc, c4, c3]; rfl
    · rw [fraw, if_pos hcl]
    · rw [fe, e4, e3]
      rw [show readUInt16BE (data.take 14) 12 = readUInt16BE data 12 from
        readUInt16BE_take (by omega)]
    · rw [show ((({ initPacket n ts cl with
          src := some (macString (bufSlice (data.take 14) 6 12))
          dst := some (macString (bufSlice (data.take 14) 0 6))
          protocols := (initPacket n ts cl).protocols ++ ["Ethernet"]
          etherType := some (readUInt16BE (data.take 14) 12) } : Packet).protocols) : List String)
          = ["Ethernet"] from rfl] at p3
      simp only [protoHasEthernet, fp]
      rcases p3 with p3 | p3 <;> rcases p4 with p4 | p4 | p4 | p4 <;>
        rw [p4, p3] <;> rfl

/-- A 14-byte Ethernet frame whose EtherType `0x86dd` (IPv6) is not
recognized by either decoder. -/
def c6EthFrame : List Nat :=
  [0xaa, 0xbb, 0xcc, 0xdd, 0xee, 0xff, 0x11, 0x22, 0x33, 0x44, 0x55, 0x66, 0x86, 0xdd]

/-- C6 witness: a nonempty one-byte frame under the unknown link type 147
is dropped by the part_000 decoder and retained (metadata, raw preview,
no Ethernet layer) by the packetParser.js decoder; a 14-byte Ethernet
frame with the unrecognized EtherType `0x86dd` is likewise dropped by
part_000 but retained by packetParser.js with its Ethernet layer and
EtherType recorded. -/
theorem c6_unsupported_retention_witness :
    p0ParsePacket [0x45] 7 3 1 147 = none ∧
    (parsePacket [0x45] 7 3 1 147).map Packet.number = some 7 ∧
    (parsePacket [0x45] 7 3 1 147).map Packet.timestamp = some 3 ∧
    (parsePacket [0x45] 7 3 1 147).map Packet.raw =
      some (some ⟨1, [0x45]⟩) ∧
    (parsePacket [0x45] 7 3 1 147).map protoHasEthernet = some false ∧
    p0ParsePacket c6EthFrame 9 5 14 1 = none ∧
    (parsePacket c6EthFrame 9 5 14 1).map Packet.number = some 9 ∧
    (parsePacket c6EthFrame 9 5 14 1).map Packet.timestamp = some 5 ∧
    (parsePacket c6EthFrame 9 5 14 1).map Packet.raw =
      some (some ⟨14, c6EthFrame⟩) ∧
    (parsePacket c6EthFrame 9 5 14 1).map Packet.etherType = some (some 0x86dd) ∧
    (parsePacket c6EthFrame 9 5 14 1).map protoHasEthernet = some true := by
  have h := c6_unsupported_retention
  have h1 := h.1 [0x45] 7 3 1 147 (by decide) (by decide) (by decide) (by decide)
  have h3 := h.2.2.1 [0x45] 7 3 1 147 (by decide) (by decide) (by decide)
  have h2 := h.2.1 c6EthFrame 9 5 14 (by decide) (by decide) (by decide)
  have h4 := h.2.2.2 c6EthFrame 9 5 14 (by decide) (by decide)
  exact ⟨h1, h3.1, h3.2.1, h3.2.2.2.2.1, h3.2.2.2.2.2, h2,
    h4.1, h4.2.1, h4.2.2.2.2.1, h4.2.2.2.2.2.1, h4.2.2.2.2.2.2⟩

/-! ## Helper lemmas for claim C4: the PCAPNG block loop -/

lemma ngLoop_small {leftover : List Nat} {s : NgAcc} (h : leftover.length < 8) :
    ngLoop leftover s = (leftover, s) := by
  rw [ngLoop]
  simp [Nat.not_le.2 h]

lemma ngLoop_stop {leftover : List Nat} {s : NgAcc} (h8 : 8 ≤ leftover.length)
    (h : readUInt32LE leftover 0 < 12 ∨ leftover.length < readUInt32LE leftover 0) :
    ngLoop leftover s = (leftover, s) := by
  rw [ngLoop]
  simp [h8, h]

lemma ngLoop_consume {leftover : List Nat} {s : NgAcc} (h8 : 8 ≤ leftover.length)
    (h12 : 12 ≤ readUInt32LE leftover 0) (hlen : readUInt32LE leftover 0 ≤ leftover.length) :
    ngLoop leftover s =
      ngLoop (leftover.drop (readUInt32LE leftover 0))
        (ngHandleBlock { s with offset := s.offset + readUInt32LE leftover 0 }
          (readUInt32LE leftover 4) (leftover.take (readUInt32LE leftover 0))) := by
  rw [ngLoop]
  simp [h8, Nat.not_lt.2 h12, Nat.not_lt.2 hlen]

/-! ## Claim C4 — PCAPNG block framing -/

/-- A well-formed 28-byte PCAPNG Section Header Block: type `0x0a0d0d0a`
in bytes 0–3, total length 28 in bytes 4–7, byte-order magic, version,
section length, trailing length. -/
def c4Shb : List Nat :=
  [0x0a, 0x0d, 0x0d, 0x0a, 0x1c, 0, 0, 0, 0x4d, 0x3c, 0x2b, 0x1a,
   0xff, 0xff, 0xff, 0xff, 0xff, 0xff, 0xff, 0xff, 0, 0, 0, 0, 0x1c, 0, 0, 0]

/-- 16 bytes that the code's swapped field order accepts as one whole
block: its bytes 0–3 (where the code looks for the length) hold 16 and
its bytes 4–7 (where the code looks for the type) hold the unknown type
`0xdeadbeef`. -/
def c4Unknown : List Nat :=
  [16, 0, 0, 0, 0xef, 0xbe, 0xad, 0xde, 1, 2, 3, 4, 5, 6, 7, 8]

/-- C4 divergence: the loop reads the block *length* from bytes 0–3 and
the block *type* from bytes 4–7, swapped relative to the claim and the
PCAPNG format.  On a well-formed Section Header Block (type first,
declared total length 28 fully buffered) it takes `0x0a0d0d0a` =
168627466 as the length and therefore consumes nothing and waits for
more input forever.  The buffering and unknown-type-skipping behaviour
the claim describes does hold, but relative to the swapped fields: a
block whose bytes 0–3 declare length 16 with an unknown type in bytes
4–7 is consumed whole by declared length without interpretation. -/
theorem c4_block_field_swap :
    c4Shb.length = 28 ∧
    readUInt32LE c4Shb 4 = 28 ∧
    readUInt32LE c4Shb 0 = 0x0a0d0d0a ∧
    ngLoop c4Shb initNgAcc = (c4Shb, initNgAcc) ∧
    ngLoop c4Unknown initNgAcc = ([], { initNgAcc with offset := 16 }) := by
  refine ⟨by decide, by decide, by decide, ?_, ?_⟩
  · exact ngLoop_stop (by decide) (Or.inr (by decide))
  · have h1 : readUInt32LE c4Unknown 0 = 16 := by decide
    rw [ngLoop_consume (by decide) (by decide) (by decide), h1]
    have h2 : c4Unknown.drop 16 = [] := by decide
    rw [h2, ngLoop_small (by decide)]
    decide

/-! ## Helper lemmas for the replay engine -/

/-- The `timeScale` computed by `start`. -/
def startTsc (ps : List Packet) : ℚ :=
  if 1 < ps.length then
    ((ps.getLast?.getD default).timestamp - (ps.headD default).timestamp) / (ps.length * 10)
  else 100

/-- The events of an uninterrupted delivery cascade for indices
`i, i+1, …, i+k-1`. -/
def deliveryEvents (ps : List Packet) : Nat → Nat → List SimEvent
  | _, 0 => []
  | i, k + 1 =>
    .packetEv (ps.getD i default) ::
    .statsEv { isCapturing := true, isPaused := false, currentIndex := i
               totalPackets := ps.length
               progress := (i : ℚ) / (ps.length : ℚ) * 100 } ::
    deliveryEvents ps (i + 1) k

lemma runTimers_no_timer {s : Sim} (h : s.timer = false) :
    ∀ fuel, runTimers fuel s = (s, []) := by
  intro fuel
  cases fuel <;> simp [runTimers, h]

/-- A running session with the timer armed and `k` packets left delivers
exactly those packets (with their stats events), completes, and disarms
the timer, within `k + 1` timer firings. -/
lemma runTimers_cascade (ps : List Packet) :
    ∀ (k idx : Nat) (spd tsc : ℚ), idx + k = ps.length →
      runTimers (k + 1) ⟨ps, idx, true, false, spd, true, tsc⟩ =
        (⟨ps, ps.length, false, false, spd, false, tsc⟩, deliveryEvents ps idx k) := by
  intro k
  induction k with
  | zero =>
    intro idx spd tsc hidx
    have hge : ps.length ≤ idx := by omega
    simp only [runTimers, sendPacketStep]
    simp [hge, deliveryEvents, ← hidx]
  | succ k ih =>
    intro idx spd tsc hidx
    have hlt : idx < ps.length := by omega
    have hstep : sendPacketStep ⟨ps, idx, true, false, spd, false, tsc⟩ =
        (⟨ps, idx + 1, true, false, spd, true, tsc⟩,
         [.packetEv (ps.getD idx default),
          .statsEv ⟨true, false, idx, ps.length, (idx : ℚ) / (ps.length : ℚ) * 100⟩]) := by
      rw [sendPacketStep, if_neg (by simp [Nat.not_le.2 hlt])]
    have hih := ih (idx + 1) spd tsc (by omega)
    conv_lhs => rw [runTimers]
    rw [if_pos rfl]
    simp only [hstep, hih, deliveryEvents]
    simp

/-- `start` on a loaded session at speed 1: throws nothing, delivers the
first packet synchronously, arms the timer. -/
lemma startSim_run (ps : List Packet) (h : 1 ≤ ps.length) :
    startSim (mkLoaded ps) 1 =
      (none, ⟨ps, 1, true, false, 1, true, startTsc ps⟩,
       [.packetEv (ps.getD 0 default),
        .statsEv ⟨true, false, 0, ps.length, ((0 : ℕ) : ℚ) / (ps.length : ℚ) * 100⟩]) := by
  have hne : ¬ ps.length = 0 := by omega
  simp only [startSim, mkLoaded, startTsc, sendPacketStep]
  simp [hne, Nat.le_zero]

/-- The full C2 scenario evaluated: final state and event trace. -/
lemma runReplay_eq (ps : List Packet) (h : 1 ≤ ps.length) :
    runReplay ps = (⟨ps, ps.length, false, false, 1, false, startTsc ps⟩,
      deliveryEvents ps 0 ps.length) := by
  obtain ⟨k, hk⟩ : ∃ k, ps.length = k + 1 := ⟨ps.length - 1, by omega⟩
  have hc := runTimers_cascade ps k 1 1 (startTsc ps) (by omega)
  unfold runReplay
  rw [startSim_run ps h]
  simp only
  rw [hk] at hc ⊢
  rw [hc]
  simp [deliveryEvents, hk]

lemma packetEvList_delivery (ps : List Packet) :
    ∀ (k i : Nat), i + k ≤ ps.length →
      packetEvList (deliveryEvents ps i k) = (ps.drop i).take k := by
  intro k
  induction k with
  | zero => intro i _; simp [deliveryEvents, packetEvList]
  | succ k ih =>
    intro i hik
    have hi : i < ps.length := by omega
    have hdrop : ps.drop i = ps[i] :: ps.drop (i + 1) := List.drop_eq_getElem_cons hi
    have hgd : ps.getD i default = ps[i] := by
      simp [List.getD, List.getElem?_eq_getElem hi]
    simp only [deliveryEvents, packetEvList, List.filterMap_cons]
    rw [hdrop]
    simp only [List.take_succ_cons]
    rw [← ih (i + 1) (by omega)]
    simp [packetEvList, List.getD, List.getElem?_eq_getElem hi]

lemma statsEvList_delivery (ps : List Packet) :
    ∀ (k i : Nat), (statsEvList (deliveryEvents ps i k)).length = k := by
  intro k
  induction k with
  | zero => intro i; simp [deliveryEvents, statsEvList]
  | succ k ih =>
    intro i
    simp only [deliveryEvents, statsEvList, List.filterMap_cons]
    simpa [statsEvList] using ih (i + 1)

lemma getLast?_cons_ne {α : Type} (a : α) (l : List α) (h : l ≠ []) :
    (a :: l).getLast? = l.getLast? := by
  cases l with
  | nil => simp at h
  | cons b t => simp [List.getLast?]

lemma statsEvList_cons_pair (p : Packet) (st : StatsSnapshot) (rest : List SimEvent) :
    statsEvList (.packetEv p :: .statsEv st :: rest) = st :: statsEvList rest := rfl

lemma lastStats_delivery (ps : List Packet) :
    ∀ (k i : Nat), lastStats (deliveryEvents ps i (k + 1)) =
      some ⟨true, false, i + k, ps.length, ((i + k : ℕ) : ℚ) / (ps.length : ℚ) * 100⟩ := by
  intro k
  induction k with
  | zero =>
    intro i
    simp [deliveryEvents, lastStats, statsEvList, List.getLast?]
  | succ k ih =>
    intro i
    have hlen : (statsEvList (deliveryEvents ps (i + 1) (k + 1))).length = k + 1 :=
      statsEvList_delivery ps (k + 1) (i + 1)
    have hne : statsEvList (deliveryEvents ps (i + 1) (k + 1)) ≠ [] := by
      intro hnil
      rw [hnil] at hlen
      simp at hlen
    have hih := ih (i + 1)
    rw [show i + 1 + k = i + (k + 1) from by omega] at hih
    simp only [lastStats] at hih ⊢
    rw [show deliveryEvents ps i (k + 1 + 1) =
      .packetEv (ps.getD i default) ::
      .statsEv ⟨true, false, i, ps.length, (i : ℚ) / (ps.length : ℚ) * 100⟩ ::
      deliveryEvents ps (i + 1) (k + 1) from rfl]
    rw [statsEvList_cons_pair]
    rw [getLast?_cons_ne _ _ hne]
    exact hih

/-! ## Claim C2 — uninterrupted replay of n packets -/

/-- A minimal decoded packet used to drive concrete replay scenarios. -/
def c2Packet (i : Nat) : Packet := initPacket i 0 60

/-- Three packets, as in the spec's replay test. -/
def c2Packets : List Packet := [c2Packet 1, c2Packet 2, c2Packet 3]

/-- C2 counterexample: with 3 packets the final `onStats` event reports
`progress = 200/3 ≈ 66.67`, not 100 — `sendPacket` emits the stats
snapshot before incrementing the index, so the last delivered snapshot
carries index `n - 1` and progress `(n-1)/n·100`. -/
theorem c2_final_progress_counterexample :
    (lastStats (runReplay c2Packets).2).map StatsSnapshot.progress = some (200 / 3) ∧
    ((200 : ℚ) / 3) ≠ 100 := by
  constructor
  · rw [runReplay_eq c2Packets (by decide)]
    show Option.map StatsSnapshot.progress
      (lastStats (deliveryEvents c2Packets 0 c2Packets.length)) = some (200 / 3)
    rw [show c2Packets.length = 2 + 1 from rfl, lastStats_delivery c2Packets 2 0]
    simp only [Option.map_some']
    have hlen : (c2Packets.length : ℚ) = 3 := by norm_num [c2Packets]
    rw [hlen]
    norm_num
  · norm_num

/-- C2 amended: starting a session loaded with `n ≥ 1` packets and never
pausing delivers exactly the `n` packets, in their original order, with
one stats event per delivery; the final stats event reports
`progress = (n-1)/n · 100` (never 100), and the session ends completed
(`isCapturing = false`, index at the end). -/
theorem c2_replay_delivers_all (ps : List Packet) (h : 1 ≤ ps.length) :
    packetEvList (runReplay ps).2 = ps ∧
    (statsEvList (runReplay ps).2).length = ps.length ∧
    lastStats (runReplay ps).2 =
      some ⟨true, false, ps.length - 1, ps.length,
        ((ps.length - 1 : ℕ) : ℚ) / (ps.length : ℚ) * 100⟩ ∧
    (runReplay ps).1.isCapturing = false ∧
    (runReplay ps).1.currentIndex = ps.length := by
  obtain ⟨k, hk⟩ : ∃ k, ps.length = k + 1 := ⟨ps.length - 1, by omega⟩
  rw [runReplay_eq ps h]
  refine ⟨?_, ?_, ?_, rfl, rfl⟩
  · rw [packetEvList_delivery ps ps.length 0 (by omega)]
    simp
  · exact statsEvList_delivery ps ps.length 0
  · have h2 := lastStats_delivery ps k 0
    rw [hk] at h2 ⊢
    rw [h2]
    simp

/-- C2 witness: the three-packet scenario delivered in order with final
progress `(3-1)/3·100`. -/
theorem c2_replay_delivers_all_witness :
    packetEvList (runReplay c2Packets).2 = c2Packets ∧
    lastStats (runReplay c2Packets).2 =
      some ⟨true, false, c2Packets.length - 1, c2Packets.length,
        ((c2Packets.length - 1 : ℕ) : ℚ) / (c2Packets.length : ℚ) * 100⟩ ∧
    (runReplay c2Packets).1.isCapturing = false := by
  have h := c2_replay_delivers_all c2Packets (by decide)
  exact ⟨h.1, h.2.2.1, h.2.2.2.1⟩

/-! ## Claim C8 — pause cancels the pending delivery -/

/-- C8: from a loaded session, `start` delivers exactly the first packet
synchronously; calling `pause` right after leaves the session paused at
index 1 with the pending delivery cancelled, and however many times the
timer driver runs afterwards, no further event of any kind fires;
`getStatus` then reports `isPaused = true` and `currentIndex = 1`. -/
theorem c8_pause_cancels_delivery (ps : List Packet) (h : 1 ≤ ps.length) :
    (startSim (mkLoaded ps) 1).1 = none ∧
    packetEvList (startSim (mkLoaded ps) 1).2.2 = [ps.getD 0 default] ∧
    (pauseSim (startSim (mkLoaded ps) 1).2.1).isPaused = true ∧
    (pauseSim (startSim (mkLoaded ps) 1).2.1).currentIndex = 1 ∧
    (pauseSim (startSim (mkLoaded ps) 1).2.1).timer = false ∧
    (∀ fuel, runTimers fuel (pauseSim (startSim (mkLoaded ps) 1).2.1) =
      (pauseSim (startSim (mkLoaded ps) 1).2.1, [])) ∧
    (getStatus (pauseSim (startSim (mkLoaded ps) 1).2.1)).isPaused = true ∧
    (getStatus (pauseSim (startSim (mkLoaded ps) 1).2.1)).currentIndex = 1 := by
  rw [startSim_run ps h]
  have hpause : pauseSim ⟨ps, 1, true, false, 1, true, startTsc ps⟩ =
      ⟨ps, 1, true, true, 1, false, startTsc ps⟩ := by
    rw [pauseSim, if_pos (by simp)]
  simp only [hpause]
  refine ⟨by simp, by simp [packetEvList], by simp, by simp, by simp, ?_,
    by simp [getStatus], by simp [getStatus]⟩
  exact runTimers_no_timer rfl

/-- C8 witness: the three-packet session, paused after the first
delivery (timer driver run 5 more times, delivering nothing). -/
theorem c8_pause_cancels_delivery_witness :
    packetEvList (startSim (mkLoaded c2Packets) 1).2.2 = [c2Packets.getD 0 default] ∧
    (pauseSim (startSim (mkLoaded c2Packets) 1).2.1).currentIndex = 1 ∧
    runTimers 5 (pauseSim (startSim (mkLoaded c2Packets) 1).2.1) =
      (pauseSim (startSim (mkLoaded c2Packets) 1).2.1, []) ∧
    (getStatus (pauseSim (startSim (mkLoaded c2Packets) 1).2.1)).isPaused = true := by
  have h := c8_pause_cancels_delivery c2Packets (by decide)
  exact ⟨h.2.1, h.2.2.2.1, h.2.2.2.2.2.1 5, h.2.2.2.2.2.2.1⟩

/-! ## Claim C9 — misuse of the replay controls -/

/-- A loaded (not capturing, not paused) one-packet session. -/
def c9State : Sim := mkLoaded [c2Packet 1]

/-- C9 counterexample: `resume` on a session that is not paused (and
`pause` on one that is not capturing) does **not** fail with any
IllegalState condition — it silently completes, returning the state
unchanged and firing no events.  Only `start` can fail. -/
theorem c9_silent_noop_counterexample :
    resumeSim c9State = (c9State, []) ∧
    pauseSim c9State = c9State ∧
    c9State.isPaused = false ∧
    c9State.isCapturing = false :=
  ⟨rfl, rfl, rfl, rfl⟩

/-- C9 amended: `start` with no packets loaded throws
`"No packets loaded"` and leaves the state unchanged; `resume` when the
session is not paused (or not capturing) and `pause` when it is not
capturing (or already paused) are silent no-ops that leave the state
unchanged and raise no error — they do not fail with an IllegalState
condition. -/
theorem c9_misuse_behaviour :
    (∀ (s : Sim) (v : ℚ), s.packets = [] →
      startSim s v = (some "No packets loaded", s, [])) ∧
    (∀ s : Sim, s.isPaused = false → resumeSim s = (s, [])) ∧
    (∀ s : Sim, s.isCapturing = false → resumeSim s = (s, [])) ∧
    (∀ s : Sim, s.isCapturing = false → pauseSim s = s) ∧
    (∀ s : Sim, s.isPaused = true → pauseSim s = s) := by
  refine ⟨?_, ?_, ?_, ?_, ?_⟩
  · intro s v hps
    rw [startSim, if_pos (by rw [hps]; rfl)]
  · intro s hp
    rw [resumeSim, if_neg (by simp [hp])]
  · intro s hc
    rw [resumeSim, if_neg (by simp [hc])]
  · intro s hc
    rw [pauseSim, if_neg (by simp [hc])]
  · intro s hp
    rw [pauseSim, if_neg (by simp [hp])]

/-- C9 witness: concrete misuse calls — `start` on an empty session
fails without mutating it; `resume`/`pause` on a freshly loaded session
are silent no-ops. -/
theorem c9_misuse_behaviour_witness :
    startSim (mkLoaded []) 1 = (some "No packets loaded", mkLoaded [], []) ∧
    resumeSim c9State = (c9State, []) ∧
    pauseSim c9State = c9State := by
  have h := c9_misuse_behaviour
  exact ⟨h.1 (mkLoaded []) 1 rfl, h.2.1 c9State rfl, h.2.2.2.1 c9State rfl⟩

end NetVis
